import Mathlib

/-!
Verification development for the GPU resource and pipeline management layer
(bevy_render pipeline reflection and bevy_wgpu render resource context).

The definitions below are a shallow embedding of the code in
src/crates/bevy_render/src/pipeline/pipeline.rs and
src/crates/bevy_wgpu/src/renderer/wgpu_render_resource_context.rs.
Rust HashMaps are embedded as association lists, opaque GPU handles and ids
as Nat, native GPU objects (owned by wgpu) as Unit entries plus creation
counters, and panics as an explicit error type.  Types declared in parts of
the repository that are not among the provided sources (bevy_render's
render_resource / pipeline data model, the WgpuResources state struct) are
modelled from the spec; each such definition carries a doc comment starting
with "Modelled from the spec:".
-/

/-- Association-list lookup: the embedding of HashMap::get.  Keys compare by
decidable equality; the first entry with the key wins. -/
def alGet {κ β : Type} [DecidableEq κ] (l : List (κ × β)) (k : κ) : Option β :=
  match l with
  | [] => none
  | (k', v) :: t => if k' = k then some v else alGet t k

/-- Association-list removal: the embedding of HashMap::remove (drops every
entry with the key). -/
def alRemove {κ β : Type} [DecidableEq κ] (l : List (κ × β)) (k : κ) : List (κ × β) :=
  l.filter (fun p => p.1 != k)

/-- Association-list insertion: the embedding of HashMap::insert (replaces any
existing entry for the key). -/
def alInsert {κ β : Type} [DecidableEq κ] (l : List (κ × β)) (k : κ) (v : β) : List (κ × β) :=
  (k, v) :: alRemove l k

/-- Membership test on an association list (HashMap::contains_key). -/
def alContains {κ β : Type} [DecidableEq κ] (l : List (κ × β)) (k : κ) : Bool :=
  (alGet l k).isSome

/-! ## Data model

Handles (RenderResource, Handle of Shader, Handle of PipelineDescriptor,
BindGroupDescriptorId, RenderResourceSetId, WindowId) are opaque comparable
identifiers in the source; all are embedded as Nat. -/

/-- Modelled from the spec: ResourceInfo Buffer variant carries size and usage
(the source's BufferInfo struct lives in bevy_render's render_resource module,
which is not among the provided sources).  The usage bitmask is opaque here. -/
structure BufferInfo where
  size : Nat
  buffer_usage : Nat
deriving DecidableEq, Repr

/-- Modelled from the spec: tagged union describing a resource's static shape,
one instance per live RenderResource.  Texture and sampler descriptors are
opaque to every claim, so they are carried as plain tokens. -/
inductive ResourceInfo where
  | Buffer (info : BufferInfo)
  | Texture (descriptor : Nat)
  | Sampler
deriving DecidableEq, Repr

/-- Modelled from the spec: per-binding kind — uniform buffer with a dynamic
flag (offset supplied per-draw when true), storage buffer, sampled texture,
sampler.  Only the uniform-buffer kind carries the dynamic flag. -/
inductive BindType where
  | Uniform (dynamic : Bool)
  | StorageBuffer
  | SampledTexture
  | Sampler
deriving DecidableEq, Repr

/-- Modelled from the spec: one expected binding of a bind group — index, name
and expected type. -/
structure BindingDescriptor where
  index : Nat
  name : String
  bind_type : BindType
deriving DecidableEq, Repr

/-- Modelled from the spec: a stable identity plus an ordered list of expected
bindings; index places the group in the pipeline layout. -/
structure BindGroupDescriptor where
  index : Nat
  id : Nat
  bindings : List BindingDescriptor
deriving DecidableEq, Repr

/-- Modelled from the spec: per-binding-name value — a texture handle, a
sampler handle, or a buffer handle with a byte range and an optional dynamic
index. -/
inductive RenderResourceAssignment where
  | Texture (resource : Nat)
  | Sampler (resource : Nat)
  | Buffer (resource : Nat) (range : Nat × Nat) (dynamic_index : Option Nat)
deriving DecidableEq, Repr

/-- Modelled from the spec: a resolved render-resource set, identified by its
content-derived RenderResourceSetId (the bind-group cache key). -/
structure RenderResourceSet where
  id : Nat
deriving DecidableEq, Repr

/-- Modelled from the spec: RenderResourceAssignments is a named mapping from
binding name to assignment with an order-independent content identity per
bind-group descriptor; the resolved identity for a descriptor is absent when
no assignment set resolves for it (not-ready, spec section 4.4 step 1).  The
mapping and the per-descriptor resolved sets are carried as data; the id field
identifies the assignment collection itself (it appears in the
missing-binding panic message). -/
structure RenderResourceAssignments where
  id : Nat
  assignments : List (String × RenderResourceAssignment)
  resolved_sets : List (Nat × RenderResourceSet)
deriving DecidableEq, Repr

/-- Lookup of a binding name's assignment (render_resource_assignments.get). -/
def RenderResourceAssignments.get (a : RenderResourceAssignments) (name : String) :
    Option RenderResourceAssignment :=
  alGet a.assignments name

/-- Modelled from the spec: the resolved render-resource set identity for a
bind-group descriptor, absent when the assignment set does not resolve. -/
def RenderResourceAssignments.get_render_resource_set (a : RenderResourceAssignments)
    (bind_group_descriptor_id : Nat) : Option RenderResourceSet :=
  alGet a.resolved_sets bind_group_descriptor_id

/-- Modelled from the spec: one vertex-buffer descriptor (stride, step mode and
attributes are opaque to every claim, carried as a token); the name keys the
synchronization against globally declared descriptors. -/
structure VertexBufferDescriptor where
  name : String
  layout : Nat
deriving DecidableEq, Repr

/-- Modelled from the spec: the externally declared vertex-buffer descriptors
that reflection synchronizes against. -/
def VertexBufferDescriptors := List VertexBufferDescriptor

/-- Modelled from the spec: a per-stage shader layout — the bind groups and
vertex attributes reflected from one stage's compiled bytecode. -/
structure ShaderLayout where
  bind_groups : List BindGroupDescriptor
  vertex_buffer_descriptors : List VertexBufferDescriptor
deriving DecidableEq, Repr

/-- Modelled from the spec: a compiled shader asset.  The shader asset boundary
provides a reflect capability from the shader's bytecode to a per-stage layout
(or nothing when the bytecode cannot be reflected); that result is carried
here as data. -/
structure Shader where
  reflected : Option ShaderLayout
deriving DecidableEq, Repr

/-- Embeds Shader::reflect_layout as used by pipeline.rs line 160: yields the
per-stage layout, or none (an unwrap panic at the call site) when the bytecode
cannot be reflected.  The naming-convention flag only enriches name-based
inference inside the real reflector, so it does not change the modelled
result. -/
def Shader.reflect_layout (shader : Shader) (_bevy_conventions : Bool) : Option ShaderLayout :=
  shader.reflected

/-- Modelled from the spec: the narrow asset-store lookup contract — a mapping
from handle to asset. -/
structure AssetStorage (α : Type) where
  assets : List (Nat × α)

/-- Asset lookup by handle (AssetStorage::get). -/
def AssetStorage.get {α : Type} (s : AssetStorage α) (handle : Nat) : Option α :=
  alGet s.assets handle

/-- Modelled from the spec: derived pipeline layout — ordered bind groups plus
vertex-buffer descriptors. -/
structure PipelineLayout where
  bind_groups : List BindGroupDescriptor
  vertex_buffer_descriptors : List VertexBufferDescriptor
deriving DecidableEq, Repr

/-- Embeds PipelineLayoutType (pipeline.rs lines 17-21): a layout is either
supplied manually or reflected (absent until reflection runs). -/
inductive PipelineLayoutType where
  | Manual (layout : PipelineLayout)
  | Reflected (layout : Option PipelineLayout)
deriving DecidableEq, Repr

/-- Modelled from the spec: a vertex-stage shader handle plus an optional
fragment-stage shader handle. -/
structure ShaderStages where
  vertex : Nat
  fragment : Option Nat
deriving DecidableEq, Repr

/-- Embeds PipelineDescriptor (pipeline.rs lines 29-60).  The fixed-function
state fields (rasterization, color, depth-stencil, primitive topology, index
format, sample settings) are consumed only while building the native pipeline
object, which the embedding models by a creation counter, so they are not
carried here. -/
structure PipelineDescriptor where
  name : Option String
  layout : PipelineLayoutType
  shader_stages : ShaderStages
deriving DecidableEq, Repr

/-- Embeds PipelineDescriptor::get_layout (pipeline.rs lines 122-127). -/
def PipelineDescriptor.get_layout (pd : PipelineDescriptor) : Option PipelineLayout :=
  match pd.layout with
  | PipelineLayoutType.Reflected layout => layout
  | PipelineLayoutType.Manual layout => some layout

/-! ## Pipeline layout reflection (pipeline.rs lines 136-194) -/

/-- Modelled from the spec (section 4.1 step 3): union-combine one per-stage
bind group into the accumulated groups — a group with the same group index is
merged (a binding with the same index and name across stages is one logical
binding; on a type conflict the first stage's type is kept, the source leaving
that case unspecified), otherwise the group is appended. -/
def mergeBindGroups (g' g : BindGroupDescriptor) : BindGroupDescriptor :=
  { g' with bindings := g'.bindings ++
      g.bindings.filter (fun b =>
        g'.bindings.all (fun b0 => !(b0.index == b.index && b0.name == b.name))) }

/-- Modelled from the spec (section 4.1 step 3): insert one reflected bind
group into the accumulated merged groups. -/
def insertShaderBindGroup (acc : List BindGroupDescriptor) (g : BindGroupDescriptor) :
    List BindGroupDescriptor :=
  if acc.any (fun g' => g'.index == g.index) then
    acc.map (fun g' => if g'.index == g.index then mergeBindGroups g' g else g')
  else acc ++ [g]

/-- Modelled from the spec (section 4.1 step 3): merge the per-stage layouts
into one PipelineLayout (the source's PipelineLayout::from_shader_layouts,
declared in bevy_render's pipeline module, is not among the provided
sources). -/
def PipelineLayout.from_shader_layouts (layouts : List ShaderLayout) : PipelineLayout :=
  { bind_groups :=
      layouts.foldl (fun acc l => l.bind_groups.foldl insertShaderBindGroup acc) []
    vertex_buffer_descriptors :=
      layouts.foldl (fun acc l => acc ++ l.vertex_buffer_descriptors) [] }

/-- Modelled from the spec (section 4.1 step 4): the externally declared
descriptors are authoritative — each inferred vertex-buffer descriptor is
replaced by the global descriptor of the same name when one exists. -/
def PipelineLayout.sync_vertex_buffer_descriptors (l : PipelineLayout)
    (global : VertexBufferDescriptors) : PipelineLayout :=
  { l with vertex_buffer_descriptors := l.vertex_buffer_descriptors.map (fun v =>
      match (global : List VertexBufferDescriptor).find? (fun g => g.name == v.name) with
      | some g => g
      | none => v) }

/-- Embeds the dynamic-promotion pass of reflect_layout (pipeline.rs lines
175-190) on one binding: when the binding's name has a buffer assignment with
a dynamic_index and the binding's type is a uniform, the dynamic flag is set
to true. -/
def promoteBinding (a : RenderResourceAssignments) (binding : BindingDescriptor) :
    BindingDescriptor :=
  match RenderResourceAssignments.get a binding.name with
  | some (RenderResourceAssignment.Buffer _ _ (some _)) =>
    match binding.bind_type with
    | BindType.Uniform _ => { binding with bind_type := BindType.Uniform true }
    | _ => binding
  | _ => binding

/-- The promotion pass over one bind group (pipeline.rs line 176). -/
def promoteBindGroup (a : RenderResourceAssignments) (g : BindGroupDescriptor) :
    BindGroupDescriptor :=
  { g with bindings := g.bindings.map (promoteBinding a) }

/-- The promotion pass over the whole layout (pipeline.rs line 175). -/
def promoteLayout (a : RenderResourceAssignments) (l : PipelineLayout) : PipelineLayout :=
  { l with bind_groups := l.bind_groups.map (promoteBindGroup a) }

/-- Whether a binding name maps to a buffer assignment with a dynamic index —
the scrutinee of the promotion pass (pipeline.rs lines 177-181). -/
def dynamicBufferAssigned (a : RenderResourceAssignments) (name : String) : Bool :=
  match RenderResourceAssignments.get a name with
  | some (RenderResourceAssignment.Buffer _ _ (some _)) => true
  | _ => false

/-- Panic outcomes of the embedded operations: each constructor corresponds to
one panicking site (an unwrap or an explicit panic) in the sources. -/
inductive Panic where
  | missingShader
  | reflectFailed
  | missingLayout
  | missingBindGroupLayout
  | missingShaderModule
  | missingResource
  | noSurface
  | noSwapChain
  | missingBinding (name : String)
deriving DecidableEq, Repr

/-- The layout reflect_layout computes after shader resolution (pipeline.rs
lines 165-191): merge the per-stage layouts, synchronize vertex buffers
against the global descriptors when supplied, and run the dynamic-promotion
pass when assignments are supplied. -/
def reflect_result (layouts : List ShaderLayout)
    (vertex_buffer_descriptors : Option VertexBufferDescriptors)
    (render_resource_assignments : Option RenderResourceAssignments) : PipelineLayout :=
  match render_resource_assignments with
  | some a => promoteLayout a
      (match vertex_buffer_descriptors with
       | some v => PipelineLayout.sync_vertex_buffer_descriptors
          (PipelineLayout.from_shader_layouts layouts) v
       | none => PipelineLayout.from_shader_layouts layouts)
  | none =>
      match vertex_buffer_descriptors with
      | some v => PipelineLayout.sync_vertex_buffer_descriptors
          (PipelineLayout.from_shader_layouts layouts) v
      | none => PipelineLayout.from_shader_layouts layouts

/-- Embeds the tail of reflect_layout after shader resolution (pipeline.rs
lines 165-193): compute the merged, synchronized, promoted layout and write it
into the Reflected slot (line 193). -/
def finish_reflect (pd : PipelineDescriptor) (layouts : List ShaderLayout)
    (vertex_buffer_descriptors : Option VertexBufferDescriptors)
    (render_resource_assignments : Option RenderResourceAssignments) : PipelineDescriptor :=
  { pd with layout := PipelineLayoutType.Reflected (some
      (reflect_result layouts vertex_buffer_descriptors render_resource_assignments)) }

/-- Embeds PipelineDescriptor::reflect_layout (pipeline.rs lines 146-194).
Resolution and unwrap order follows the source: vertex shader lookup (line
153), fragment shader lookup when a fragment handle is present (lines
154-158), vertex-stage reflection (line 160), fragment-stage reflection (line
162).  Each unwrap of an absent value is a panic, embedded as an error. -/
def PipelineDescriptor.reflect_layout (pd : PipelineDescriptor)
    (shaders : AssetStorage Shader) (bevy_conventions : Bool)
    (vertex_buffer_descriptors : Option VertexBufferDescriptors)
    (render_resource_assignments : Option RenderResourceAssignments) :
    Except Panic PipelineDescriptor :=
  match AssetStorage.get shaders pd.shader_stages.vertex with
  | none => Except.error Panic.missingShader
  | some vertex_spirv =>
    match pd.shader_stages.fragment with
    | some fragment_handle =>
      match AssetStorage.get shaders fragment_handle with
      | none => Except.error Panic.missingShader
      | some fragment_spirv =>
        match Shader.reflect_layout vertex_spirv bevy_conventions with
        | none => Except.error Panic.reflectFailed
        | some vertex_layout =>
          match Shader.reflect_layout fragment_spirv bevy_conventions with
          | none => Except.error Panic.reflectFailed
          | some fragment_layout =>
            Except.ok (finish_reflect pd [vertex_layout, fragment_layout]
              vertex_buffer_descriptors render_resource_assignments)
    | none =>
      match Shader.reflect_layout vertex_spirv bevy_conventions with
      | none => Except.error Panic.reflectFailed
      | some vertex_layout =>
        Except.ok (finish_reflect pd [vertex_layout]
          vertex_buffer_descriptors render_resource_assignments)

/-! ## Render resource context state (wgpu_render_resource_context.rs)

The embedding is sequential: each method of the source acquires per-collection
locks, reads and writes the shared WgpuResources collections, and releases the
locks; here the lock-acquire/release brackets collapse to direct field access
on an explicit state value.  Native wgpu objects (buffers, textures, views,
samplers, shader modules, pipelines, bind-group layouts, bind groups,
surfaces, swap chains, swap-chain outputs) are owned by the device and opaque,
so their maps carry Unit values; creating a native bind group or render
pipeline additionally bumps a creation counter (the spec's observable creation
counter, section 8). -/

/-- Per-descriptor bind-group cache entry (the WgpuBindGroupInfo struct of the
repository's wgpu_resources module): the native bind groups realized for this
descriptor, keyed by RenderResourceSetId. -/
structure WgpuBindGroupInfo where
  bind_groups : List (Nat × Unit)
deriving DecidableEq, Repr

/-- Modelled from the spec: the shared WgpuResources state behind the
context's per-collection locks (declared in the repository's wgpu_resources
module, not among the provided sources; the fields are the ones
wgpu_render_resource_context.rs locks and accesses).  next_resource is the
monotonic handle allocator producing RenderResource::new(). -/
structure WgpuResources where
  buffers : List (Nat × Unit)
  textures : List (Nat × Unit)
  texture_views : List (Nat × Unit)
  samplers : List (Nat × Unit)
  resource_info : List (Nat × ResourceInfo)
  shader_modules : List (Nat × Unit)
  render_pipelines : List (Nat × Unit)
  bind_group_layouts : List (Nat × Unit)
  bind_groups : List (Nat × WgpuBindGroupInfo)
  window_surfaces : List (Nat × Unit)
  window_swap_chains : List (Nat × Unit)
  swap_chain_outputs : List (Nat × Unit)
  next_resource : Nat
  bind_groups_created : Nat
  pipelines_created : Nat
deriving DecidableEq, Repr

/-- The default (empty) WgpuResources state. -/
def emptyResources : WgpuResources :=
  { buffers := [], textures := [], texture_views := [], samplers := []
    resource_info := [], shader_modules := [], render_pipelines := []
    bind_group_layouts := [], bind_groups := [], window_surfaces := []
    window_swap_chains := [], swap_chain_outputs := []
    next_resource := 0, bind_groups_created := 0, pipelines_created := 0 }

/-- Modelled from the spec (section 4.4 step 2): whether a native bind group
already exists in the cache for (descriptor id, resolved set identity) — the
has_bind_group query of the repository's wgpu_resources module. -/
def WgpuResources.has_bind_group (r : WgpuResources) (bind_group_descriptor_id : Nat)
    (render_resource_set_id : Nat) : Bool :=
  match alGet r.bind_groups bind_group_descriptor_id with
  | some info => alContains info.bind_groups render_resource_set_id
  | none => false

/-! ## Resource registry operations (lines 172-371) -/

/-- Embeds set_window_surface (lines 34-37); the native surface is opaque. -/
def set_window_surface (s : WgpuResources) (window_id : Nat) : WgpuResources :=
  { s with window_surfaces := alInsert s.window_surfaces window_id () }

/-- Embeds create_sampler (lines 172-183): allocate a fresh handle, record the
native sampler and its ResourceInfo. -/
def create_sampler (s : WgpuResources) (_sampler_descriptor : Nat) :
    WgpuResources × Nat :=
  ({ s with
      samplers := alInsert s.samplers s.next_resource ()
      resource_info := alInsert s.resource_info s.next_resource ResourceInfo.Sampler
      next_resource := s.next_resource + 1 }, s.next_resource)

/-- Embeds create_texture (lines 185-199): allocate a fresh handle, record the
native texture, its default view, and its ResourceInfo. -/
def create_texture (s : WgpuResources) (texture_descriptor : Nat) :
    WgpuResources × Nat :=
  ({ s with
      textures := alInsert s.textures s.next_resource ()
      texture_views := alInsert s.texture_views s.next_resource ()
      resource_info := alInsert s.resource_info s.next_resource
        (ResourceInfo.Texture texture_descriptor)
      next_resource := s.next_resource + 1 }, s.next_resource)

/-- Embeds create_texture_with_data (lines 39-77): same registry effect as
create_texture; the staging buffer and the recorded copy command are native
effects on the caller's command encoder, outside the registry state. -/
def create_texture_with_data (s : WgpuResources) (texture_descriptor : Nat)
    (_bytes : List Nat) : WgpuResources × Nat :=
  ({ s with
      textures := alInsert s.textures s.next_resource ()
      texture_views := alInsert s.texture_views s.next_resource ()
      resource_info := alInsert s.resource_info s.next_resource
        (ResourceInfo.Texture texture_descriptor)
      next_resource := s.next_resource + 1 }, s.next_resource)

/-- Embeds create_buffer (lines 201-216): allocate a fresh handle, record the
native buffer and a ResourceInfo carrying the caller's BufferInfo. -/
def create_buffer (s : WgpuResources) (buffer_info : BufferInfo) :
    WgpuResources × Nat :=
  ({ s with
      resource_info := alInsert s.resource_info s.next_resource
        (ResourceInfo.Buffer buffer_info)
      buffers := alInsert s.buffers s.next_resource ()
      next_resource := s.next_resource + 1 }, s.next_resource)

/-- Embeds create_buffer_mapped (lines 218-237).  The setup_data callback
receives a writable view of the staging bytes plus a read-only handle on the
context; any resources the callback itself allocates are modelled as separate
operations preceding this one in an operation sequence.  The registry effect
recorded here is the buffer insertion after the callback returns. -/
def create_buffer_mapped (s : WgpuResources) (buffer_info : BufferInfo) :
    WgpuResources × Nat :=
  ({ s with
      resource_info := alInsert s.resource_info s.next_resource
        (ResourceInfo.Buffer buffer_info)
      buffers := alInsert s.buffers s.next_resource ()
      next_resource := s.next_resource + 1 }, s.next_resource)

/-- Embeds create_buffer_with_data (lines 239-253): the caller's BufferInfo has
its size field overwritten with the data length (line 244) before the
ResourceInfo is recorded. -/
def create_buffer_with_data (s : WgpuResources) (buffer_info : BufferInfo)
    (data : List Nat) : WgpuResources × Nat :=
  ({ s with
      resource_info := alInsert s.resource_info s.next_resource
        (ResourceInfo.Buffer { buffer_info with size := data.length })
      buffers := alInsert s.buffers s.next_resource ()
      next_resource := s.next_resource + 1 }, s.next_resource)

/-- Embeds remove_buffer (lines 255-261): drop the native buffer entry and the
handle's ResourceInfo; HashMap::remove never panics, so this is total. -/
def remove_buffer (s : WgpuResources) (resource : Nat) : WgpuResources :=
  { s with
      buffers := alRemove s.buffers resource
      resource_info := alRemove s.resource_info resource }

/-- Embeds remove_texture (lines 263-271). -/
def remove_texture (s : WgpuResources) (resource : Nat) : WgpuResources :=
  { s with
      textures := alRemove s.textures resource
      texture_views := alRemove s.texture_views resource
      resource_info := alRemove s.resource_info resource }

/-- Embeds remove_sampler (lines 273-279). -/
def remove_sampler (s : WgpuResources) (resource : Nat) : WgpuResources :=
  { s with
      samplers := alRemove s.samplers resource
      resource_info := alRemove s.resource_info resource }

/-- Embeds get_resource_info (lines 281-289); the visiting callback is
modelled by returning the optional metadata it would be handed. -/
def get_resource_info (s : WgpuResources) (resource : Nat) : Option ResourceInfo :=
  alGet s.resource_info resource

/-- Embeds create_shader_module_from_source (lines 291-295): the unconditional
variant — compile and store the native module for the handle. -/
def create_shader_module_from_source (s : WgpuResources) (shader_handle : Nat) :
    WgpuResources :=
  { s with shader_modules := alInsert s.shader_modules shader_handle () }

/-- Embeds create_shader_module (lines 297-314): a no-op when a module already
exists for the handle; otherwise the shader is looked up (unwrap — a panic
when the handle does not resolve) and compiled. -/
def create_shader_module (s : WgpuResources) (shader_handle : Nat)
    (shader_storage : AssetStorage Shader) : Except Panic WgpuResources :=
  if alContains s.shader_modules shader_handle then Except.ok s
  else
    match AssetStorage.get shader_storage shader_handle with
    | none => Except.error Panic.missingShader
    | some _ => Except.ok (create_shader_module_from_source s shader_handle)

/-- Embeds create_swap_chain (lines 316-329): requires the window's surface
(expect — a panic when absent) and stores the native swap chain. -/
def create_swap_chain (s : WgpuResources) (window_id : Nat) :
    Except Panic WgpuResources :=
  match alGet s.window_surfaces window_id with
  | none => Except.error Panic.noSurface
  | some _ =>
    Except.ok { s with window_swap_chains := alInsert s.window_swap_chains window_id () }

/-- Embeds next_swap_chain_texture (lines 331-342): the window's swap chain is
looked up (unwrap — a panic when absent), the native image acquisition always
yields an image (spec section 5: GPU object creation is assumed to complete),
a fresh transient handle is allocated and recorded in swap_chain_outputs; no
ResourceInfo is recorded (the source's TODO at line 338). -/
def next_swap_chain_texture (s : WgpuResources) (window_id : Nat) :
    Except Panic (WgpuResources × Nat) :=
  match alGet s.window_swap_chains window_id with
  | none => Except.error Panic.noSwapChain
  | some _ =>
    Except.ok
      ({ s with
          swap_chain_outputs := alInsert s.swap_chain_outputs s.next_resource ()
          next_resource := s.next_resource + 1 }, s.next_resource)

/-- Embeds drop_swap_chain_texture (lines 344-347). -/
def drop_swap_chain_texture (s : WgpuResources) (render_resource : Nat) : WgpuResources :=
  { s with swap_chain_outputs := alRemove s.swap_chain_outputs render_resource }

/-- Embeds drop_all_swap_chain_textures (lines 349-352). -/
def drop_all_swap_chain_textures (s : WgpuResources) : WgpuResources :=
  { s with swap_chain_outputs := [] }

/-! ## Bind-group layout, render pipeline and bind group creation -/

/-- Embeds create_bind_group_layout (lines 139-168): a no-op when a layout
already exists for the descriptor id; otherwise the native bind-group-layout
object is built from the descriptor's bindings and stored under the id. -/
def create_bind_group_layout (s : WgpuResources) (descriptor : BindGroupDescriptor) :
    WgpuResources :=
  if alContains s.bind_group_layouts descriptor.id then s
  else { s with bind_group_layouts := alInsert s.bind_group_layouts descriptor.id () }

/-- Embeds the fragment-stage module creation of create_render_pipeline
(lines 423-425): runs only when a fragment handle is present. -/
def create_fragment_module (s : WgpuResources) (fragment : Option Nat)
    (shaders : AssetStorage Shader) : Except Panic WgpuResources :=
  match fragment with
  | some fragment_handle => create_shader_module s fragment_handle shaders
  | none => Except.ok s

/-- Embeds the fragment-stage module lookup of create_render_pipeline (lines
432-435): the unwrap succeeds exactly when the module is present (trivially so
with no fragment stage). -/
def fragment_module_present (s : WgpuResources) (fragment : Option Nat) : Bool :=
  match fragment with
  | some fragment_handle => alContains s.shader_modules fragment_handle
  | none => true

/-- Embeds create_render_pipeline (lines 373-477).  Control flow follows the
source: memo hit on the pipeline handle returns immediately (lines 379-388);
the descriptor's layout is unwrapped (line 390 — a panic when absent); every
bind group's layout object is realized (lines 391-393) and then looked up
(unwrap, line 400) to compose the native pipeline layout; shader modules are
realized for the vertex and optional fragment stage (lines 421-425) and looked
up (unwraps, lines 428-435); finally the native pipeline is built (creation
counter) and stored under the handle (lines 472-476).  The fixed-function
translation (lines 409-470) only populates the native descriptor. -/
def create_render_pipeline (s : WgpuResources) (pipeline_handle : Nat)
    (pipeline_descriptor : PipelineDescriptor) (shaders : AssetStorage Shader) :
    Except Panic WgpuResources :=
  if alContains s.render_pipelines pipeline_handle then Except.ok s
  else
    match PipelineDescriptor.get_layout pipeline_descriptor with
    | none => Except.error Panic.missingLayout
    | some layout =>
      let s1 := layout.bind_groups.foldl create_bind_group_layout s
      if layout.bind_groups.all (fun g => alContains s1.bind_group_layouts g.id) then
        match create_shader_module s1 pipeline_descriptor.shader_stages.vertex shaders with
        | Except.error e => Except.error e
        | Except.ok s2 =>
          match create_fragment_module s2 pipeline_descriptor.shader_stages.fragment
              shaders with
          | Except.error e => Except.error e
          | Except.ok s3 =>
            if alContains s3.shader_modules pipeline_descriptor.shader_stages.vertex then
              if fragment_module_present s3 pipeline_descriptor.shader_stages.fragment then
                Except.ok { s3 with
                  render_pipelines := alInsert s3.render_pipelines pipeline_handle ()
                  pipelines_created := s3.pipelines_created + 1 }
              else Except.error Panic.missingShaderModule
            else Except.error Panic.missingShaderModule
      else Except.error Panic.missingBindGroupLayout

/-- The native binding resource built for one assignment (the wgpu::BindingResource
value of lines 512-528). -/
inductive WgpuBindingResource where
  | TextureView (resource : Nat)
  | SamplerResource (resource : Nat)
  | BufferResource (resource : Nat) (range : Nat × Nat)
deriving DecidableEq, Repr

/-- One native binding of the bind group being built (wgpu::Binding, lines
529-532). -/
structure WgpuBinding where
  binding : Nat
  resource : WgpuBindingResource
deriving DecidableEq, Repr

/-- Embeds the per-assignment translation inside create_bind_group (lines
512-528): each handle is looked up in the matching registry (unwrap — a panic
when the handle is unknown); a buffer assignment contributes its byte
range. -/
def translateAssignment (s : WgpuResources) :
    RenderResourceAssignment → Except Panic WgpuBindingResource
  | RenderResourceAssignment.Texture resource =>
    match alGet s.texture_views resource with
    | some _ => Except.ok (WgpuBindingResource.TextureView resource)
    | none => Except.error Panic.missingResource
  | RenderResourceAssignment.Sampler resource =>
    match alGet s.samplers resource with
    | some _ => Except.ok (WgpuBindingResource.SamplerResource resource)
    | none => Except.error Panic.missingResource
  | RenderResourceAssignment.Buffer resource range _ =>
    match alGet s.buffers resource with
    | some _ => Except.ok (WgpuBindingResource.BufferResource resource range)
    | none => Except.error Panic.missingResource

/-- Embeds the binding-translation loop of create_bind_group (lines 501-541):
each expected binding's assignment is resolved by name; a missing assignment
is the "No resource assigned to uniform" panic (lines 533-539), and earlier
failures (in source order) win. -/
def translateBindings (s : WgpuResources) (a : RenderResourceAssignments) :
    List BindingDescriptor → Except Panic (List WgpuBinding)
  | [] => Except.ok []
  | binding :: rest =>
    match RenderResourceAssignments.get a binding.name with
    | some assignment =>
      match translateAssignment s assignment with
      | Except.error e => Except.error e
      | Except.ok res =>
        match translateBindings s a rest with
        | Except.error e => Except.error e
        | Except.ok tail => Except.ok ({ binding := binding.index, resource := res } :: tail)
    | none => Except.error (Panic.missingBinding binding.name)

/-- Embeds create_bind_group (lines 479-566).  When the assignment set's
identity does not resolve for the descriptor, or when a native bind group
already exists for (descriptor id, set identity), control falls through to the
final None (line 565) with no state change.  On a cache miss the bindings are
translated (panics embedded as errors), the descriptor's bind-group layout is
looked up (unwrap, line 543), the native bind group is built (creation
counter) and inserted into the cache under (descriptor id, set identity), and
Some(set identity) is returned (line 561). -/
def create_bind_group (s : WgpuResources) (bind_group_descriptor : BindGroupDescriptor)
    (render_resource_assignments : RenderResourceAssignments) :
    Except Panic (WgpuResources × Option Nat) :=
  match RenderResourceAssignments.get_render_resource_set render_resource_assignments
      bind_group_descriptor.id with
  | some render_resource_set =>
    if WgpuResources.has_bind_group s bind_group_descriptor.id render_resource_set.id then
      Except.ok (s, none)
    else
      match translateBindings s render_resource_assignments
          bind_group_descriptor.bindings with
      | Except.error e => Except.error e
      | Except.ok _ =>
        match alGet s.bind_group_layouts bind_group_descriptor.id with
        | none => Except.error Panic.missingBindGroupLayout
        | some _ =>
          Except.ok
            ({ s with
                bind_groups := alInsert s.bind_groups bind_group_descriptor.id
                  { bind_groups := alInsert
                      ((alGet s.bind_groups bind_group_descriptor.id).getD
                        { bind_groups := [] }).bind_groups
                      render_resource_set.id () }
                bind_groups_created := s.bind_groups_created + 1 },
             some render_resource_set.id)
  | none => Except.ok (s, none)

/-! ## Operation sequences and registry invariant (claims C7, C9) -/

/-- One registry operation, for reasoning about operation sequences.  The
create variants discard the returned handle (it remains observable through the
state); nextSwapChainTexture is included because the swap-chain clause of the
registry invariant concerns the handles it allocates. -/
inductive ResOp where
  | createBuffer (info : BufferInfo)
  | createBufferWithData (info : BufferInfo) (data : List Nat)
  | createBufferMapped (info : BufferInfo)
  | createTexture (descriptor : Nat)
  | createSampler (descriptor : Nat)
  | removeBuffer (resource : Nat)
  | removeTexture (resource : Nat)
  | removeSampler (resource : Nat)
  | nextSwapChainTexture (window_id : Nat)
deriving DecidableEq, Repr

/-- Applies one registry operation to the state.  A nextSwapChainTexture on a
window with no swap chain panics in the source (no successor state exists);
for sequence reasoning it is modelled as leaving the state unchanged, and the
side-condition predicate opOk below rules it out anyway. -/
def applyOp (s : WgpuResources) : ResOp → WgpuResources
  | ResOp.createBuffer info => (create_buffer s info).1
  | ResOp.createBufferWithData info data => (create_buffer_with_data s info data).1
  | ResOp.createBufferMapped info => (create_buffer_mapped s info).1
  | ResOp.createTexture d => (create_texture s d).1
  | ResOp.createSampler d => (create_sampler s d).1
  | ResOp.removeBuffer r => remove_buffer s r
  | ResOp.removeTexture r => remove_texture s r
  | ResOp.removeSampler r => remove_sampler s r
  | ResOp.nextSwapChainTexture w =>
    match next_swap_chain_texture s w with
    | Except.ok (s', _) => s'
    | Except.error _ => s

/-- Applies a sequence of registry operations left to right. -/
def applyOps (s : WgpuResources) (ops : List ResOp) : WgpuResources :=
  ops.foldl applyOp s

/-- Side condition of one operation at the state where it is applied: a
removal must not target a handle registered under a different kind (the
cross-kind removal is exactly what breaks the registry invariant), and a
swap-chain acquisition targets a window with a created swap chain. -/
def opOk (s : WgpuResources) : ResOp → Bool
  | ResOp.removeBuffer r => !alContains s.textures r && !alContains s.samplers r
  | ResOp.removeTexture r => !alContains s.buffers r && !alContains s.samplers r
  | ResOp.removeSampler r => !alContains s.buffers r && !alContains s.textures r
  | ResOp.nextSwapChainTexture w => alContains s.window_swap_chains w
  | _ => true

/-- Side conditions of a whole operation sequence, each evaluated at the state
where its operation runs. -/
def opsOk (s : WgpuResources) : List ResOp → Bool
  | [] => true
  | op :: rest => opOk s op && opsOk (applyOp s op) rest

/-- How many of the buffer / texture / sampler registries hold the handle. -/
def regCount (s : WgpuResources) (k : Nat) : Nat :=
  (alContains s.buffers k).toNat + (alContains s.textures k).toNat +
    (alContains s.samplers k).toNat

/-- The registry invariant of claim C9: a handle has a ResourceInfo entry
exactly when it is registered under exactly one of the buffer, texture or
sampler kinds, and swap-chain output handles never carry a ResourceInfo. -/
def regInvariant (s : WgpuResources) : Prop :=
  (∀ k : Nat, alContains s.resource_info k = true ↔ regCount s k = 1) ∧
  (∀ k : Nat, alContains s.swap_chain_outputs k = true →
    alContains s.resource_info k = false)

/-- Allocator freshness: every registered handle is below the allocator
counter, so a freshly allocated handle collides with nothing.  This holds for
every state reachable from the empty state. -/
def freshBound (s : WgpuResources) : Prop :=
  (∀ p ∈ s.buffers, p.1 < s.next_resource) ∧
  (∀ p ∈ s.textures, p.1 < s.next_resource) ∧
  (∀ p ∈ s.samplers, p.1 < s.next_resource) ∧
  (∀ p ∈ s.resource_info, p.1 < s.next_resource) ∧
  (∀ p ∈ s.swap_chain_outputs, p.1 < s.next_resource)

/-- N successive swap-chain image acquisitions on one window (claim C7). -/
def acquireN (s : WgpuResources) (window_id : Nat) : Nat → Except Panic WgpuResources
  | 0 => Except.ok s
  | Nat.succ n =>
    match next_swap_chain_texture s window_id with
    | Except.error e => Except.error e
    | Except.ok (s', _) => acquireN s' window_id n

/-- Whether an embedded operation panicked. -/
def isErrorE {α : Type} : Except Panic α → Bool
  | Except.error _ => true
  | Except.ok _ => false

/-- Whether an embedded operation completed. -/
def isOkE {α : Type} : Except Panic α → Bool
  | Except.error _ => false
  | Except.ok _ => true

/-- The name of the first expected binding with no assignment, in source
iteration order (the binding whose name the incomplete-binding panic of
create_bind_group reports). -/
def firstUnassigned (a : RenderResourceAssignments) :
    List BindingDescriptor → Option String
  | [] => none
  | b :: rest =>
    match RenderResourceAssignments.get a b.name with
    | none => some b.name
    | some _ => firstUnassigned a rest

/-- Whether a bind type carries the per-draw dynamic-offset flag (only the
uniform-buffer kind does). -/
def hasDynamicFlag : BindType → Bool
  | BindType.Uniform _ => true
  | _ => false

/-! ## Concrete instances for witnesses and counterexamples -/

/-- A bind-group descriptor with no bindings, cache identity 10. -/
def dC1 : BindGroupDescriptor := { index := 0, id := 10, bindings := [] }

/-- Assignments whose set identity for descriptor 10 resolves to 7. -/
def aC1 : RenderResourceAssignments :=
  { id := 0, assignments := [], resolved_sets := [(10, { id := 7 })] }

/-- A state whose bind-group cache already holds (descriptor 10, set 7). -/
def sC1 : WgpuResources :=
  { emptyResources with bind_groups := [(10, { bind_groups := [(7, ())] })] }

/-- A state with the bind-group layout for descriptor 10 realized but no
cached bind group: a cache miss for (10, 7). -/
def sMissC1 : WgpuResources :=
  { emptyResources with bind_group_layouts := [(10, ())] }

/-- The state after create_bind_group fills the cache from sMissC1. -/
def sHitC1 : WgpuResources :=
  { sMissC1 with
      bind_groups := [(10, { bind_groups := [(7, ())] })]
      bind_groups_created := 1 }

/-- Uniform binding named Transform, not dynamic, as reflection yields it. -/
def bTransform : BindingDescriptor :=
  { index := 0, name := "Transform", bind_type := BindType.Uniform false }

/-- Sampled-texture binding named Albedo. -/
def bAlbedo : BindingDescriptor :=
  { index := 1, name := "Albedo", bind_type := BindType.SampledTexture }

/-- One reflected bind group holding the two bindings above. -/
def gC2 : BindGroupDescriptor :=
  { index := 0, id := 42, bindings := [bTransform, bAlbedo] }

/-- A shader whose reflected per-stage layout is the group above. -/
def shaderC2 : Shader :=
  { reflected := some { bind_groups := [gC2], vertex_buffer_descriptors := [] } }

/-- Shader storage resolving handle 0 to shaderC2. -/
def storageC2 : AssetStorage Shader := { assets := [(0, shaderC2)] }

/-- A pipeline descriptor using shader handle 0 as vertex stage only. -/
def pdC2 : PipelineDescriptor :=
  { name := none, layout := PipelineLayoutType.Reflected none
    shader_stages := { vertex := 0, fragment := none } }

/-- Assignments binding Transform to a buffer with a dynamic index. -/
def aC2 : RenderResourceAssignments :=
  { id := 1
    assignments := [("Transform", RenderResourceAssignment.Buffer 3 (0, 64) (some 0))]
    resolved_sets := [] }

/-- A shader asset for pipeline creation (its bytecode is never reflected on
this path). -/
def shaderC3 : Shader := { reflected := none }

/-- Shader storage resolving handle 5 to shaderC3. -/
def storageC3 : AssetStorage Shader := { assets := [(5, shaderC3)] }

/-- A pipeline descriptor with a manual empty layout and vertex handle 5. -/
def pdC3 : PipelineDescriptor :=
  { name := none
    layout := PipelineLayoutType.Manual { bind_groups := [], vertex_buffer_descriptors := [] }
    shader_stages := { vertex := 5, fragment := none } }

/-- The state create_render_pipeline reaches from the empty state for handle 1
and pdC3. -/
def sC3 : WgpuResources :=
  { emptyResources with
      shader_modules := [(5, ())]
      render_pipelines := [(1, ())]
      pipelines_created := 1 }

/-- A descriptor expecting one binding named X. -/
def dC4 : BindGroupDescriptor :=
  { index := 0, id := 20
    bindings := [{ index := 0, name := "X", bind_type := BindType.Uniform false }] }

/-- Assignments with no entry for X but a resolved (stale) set identity 9 for
descriptor 20. -/
def aC4 : RenderResourceAssignments :=
  { id := 2, assignments := [], resolved_sets := [(20, { id := 9 })] }

/-- A pipeline descriptor whose reflected layout was never computed. -/
def pdC5 : PipelineDescriptor :=
  { name := none, layout := PipelineLayoutType.Reflected none
    shader_stages := { vertex := 0, fragment := none } }

/-- Empty shader storage: no handle resolves. -/
def storageEmpty : AssetStorage Shader := { assets := [] }

/-- Shader storage resolving handle 0 only; fragment handle 1 dangles. -/
def storageC6 : AssetStorage Shader := { assets := [(0, { reflected := none })] }

/-- A pipeline descriptor with vertex handle 0 and fragment handle 1. -/
def pdC6 : PipelineDescriptor :=
  { name := none, layout := PipelineLayoutType.Reflected none
    shader_stages := { vertex := 0, fragment := some 1 } }

/-- A state with a created swap chain for window 0 and no outstanding
swap-chain outputs. -/
def sC7 : WgpuResources :=
  { emptyResources with window_swap_chains := [(0, ())] }

/-- The state after acquiring three swap-chain images on window 0 from sC7. -/
def sC7' : WgpuResources :=
  { sC7 with
      swap_chain_outputs := [(2, ()), (1, ()), (0, ())]
      next_resource := 3 }

/-- An operation sequence within the amended C9 side conditions. -/
def opsC9 : List ResOp :=
  [ResOp.createBuffer { size := 4, buffer_usage := 0 }, ResOp.removeBuffer 0]

/-- A state with one live buffer handle 0, used to witness C10 at the absent
handle 5. -/
def sC10 : WgpuResources := (create_buffer emptyResources { size := 4, buffer_usage := 0 }).1

/-- The Transform binding after dynamic promotion. -/
def bTransformDyn : BindingDescriptor :=
  { index := 0, name := "Transform", bind_type := BindType.Uniform true }

/-- The bind group of gC2 after dynamic promotion. -/
def gC2' : BindGroupDescriptor :=
  { index := 0, id := 42, bindings := [bTransformDyn, bAlbedo] }

/-- The layout reflected from pdC2 with aC2 supplied (Transform promoted). -/
def LC2 : PipelineLayout :=
  { bind_groups := [gC2'], vertex_buffer_descriptors := [] }

/-- The layout reflected from pdC2 without assignments. -/
def L0C2 : PipelineLayout :=
  { bind_groups := [gC2], vertex_buffer_descriptors := [] }

/-- pdC2 after reflection with aC2 supplied. -/
def pdC2' : PipelineDescriptor :=
  { pdC2 with layout := PipelineLayoutType.Reflected (some LC2) }

/-- pdC2 after reflection without assignments. -/
def pdC2zero : PipelineDescriptor :=
  { pdC2 with layout := PipelineLayoutType.Reflected (some L0C2) }

/-! ## Association-list lemmas -/

theorem alGet_alRemove_self {κ β : Type} [DecidableEq κ] (l : List (κ × β)) (k : κ) :
    alGet (alRemove l k) k = none := by
  induction l with
  | nil => rfl
  | cons p t ih =>
    by_cases hp : p.1 = k
    · simpa [alRemove, alGet, hp] using ih
    · simpa [alRemove, alGet, hp] using ih

theorem alGet_alRemove_ne {κ β : Type} [DecidableEq κ] (l : List (κ × β)) (k k' : κ)
    (h : k' ≠ k) : alGet (alRemove l k) k' = alGet l k' := by
  induction l with
  | nil => rfl
  | cons p t ih =>
    by_cases hp : p.1 = k
    · have hk : k ≠ k' := Ne.symm h
      simp only [alRemove, List.filter_cons] at ih ⊢
      simp [hp, alGet, ih, hk]
    · simp only [alRemove, List.filter_cons] at ih ⊢
      by_cases hq : p.1 = k'
      · simp [bne_iff_ne, hp, hq, alGet, h]
      · simp [bne_iff_ne, hp, hq, alGet, ih]

theorem alGet_alInsert_self {κ β : Type} [DecidableEq κ] (l : List (κ × β)) (k : κ) (v : β) :
    alGet (alInsert l k v) k = some v := by
  simp [alInsert, alGet]

theorem alGet_alInsert_ne {κ β : Type} [DecidableEq κ] (l : List (κ × β)) (k k' : κ) (v : β)
    (h : k' ≠ k) : alGet (alInsert l k v) k' = alGet l k' := by
  have hk : k ≠ k' := fun hc => h hc.symm
  simp [alInsert, alGet, hk, alGet_alRemove_ne l k k' h]

theorem alContains_alInsert_self {κ β : Type} [DecidableEq κ] (l : List (κ × β)) (k : κ)
    (v : β) : alContains (alInsert l k v) k = true := by
  simp [alContains, alGet_alInsert_self]

theorem alContains_alInsert_ne {κ β : Type} [DecidableEq κ] (l : List (κ × β)) (k k' : κ)
    (v : β) (h : k' ≠ k) : alContains (alInsert l k v) k' = alContains l k' := by
  simp [alContains, alGet_alInsert_ne l k k' v h]

theorem alContains_alRemove_self {κ β : Type} [DecidableEq κ] (l : List (κ × β)) (k : κ) :
    alContains (alRemove l k) k = false := by
  simp [alContains, alGet_alRemove_self]

theorem alContains_alRemove_ne {κ β : Type} [DecidableEq κ] (l : List (κ × β)) (k k' : κ)
    (h : k' ≠ k) : alContains (alRemove l k) k' = alContains l k' := by
  simp [alContains, alGet_alRemove_ne l k k' h]

theorem alContains_exists_mem {κ β : Type} [DecidableEq κ] (l : List (κ × β)) (k : κ)
    (h : alContains l k = true) : ∃ v, (k, v) ∈ l := by
  induction l with
  | nil => simp [alContains, alGet] at h
  | cons p t ih =>
    by_cases hp : p.1 = k
    · exact ⟨p.2, by simp [← hp]⟩
    · simp only [alContains, alGet, hp, if_false] at h
      obtain ⟨v, hv⟩ := ih h
      exact ⟨v, List.mem_cons_of_mem _ hv⟩

theorem alContains_of_bound_false {β : Type} {l : List (Nat × β)} {n : Nat}
    (h : ∀ p ∈ l, p.1 < n) : alContains l n = false := by
  cases hc : alContains l n with
  | false => rfl
  | true =>
    obtain ⟨v, hv⟩ := alContains_exists_mem l n hc
    exact absurd (h (n, v) hv) (lt_irrefl n)

theorem alRemove_of_not_contains {κ β : Type} [DecidableEq κ] (l : List (κ × β)) (k : κ)
    (h : alContains l k = false) : alRemove l k = l := by
  induction l with
  | nil => rfl
  | cons p t ih =>
    by_cases hp : p.1 = k
    · simp [alContains, alGet, hp] at h
    · simp only [alContains, alGet, hp, if_false] at h
      simp only [alRemove, List.filter_cons] at ih ⊢
      simp [bne_iff_ne, hp, ih h]

theorem mem_alRemove {κ β : Type} [DecidableEq κ] {l : List (κ × β)} {k : κ} {p : κ × β}
    (h : p ∈ alRemove l k) : p ∈ l :=
  List.mem_of_mem_filter h

theorem mem_alInsert {κ β : Type} [DecidableEq κ] {l : List (κ × β)} {k : κ} {v : β}
    {p : κ × β} (h : p ∈ alInsert l k v) : p = (k, v) ∨ p ∈ l := by
  rcases List.mem_cons.mp h with h' | h'
  · exact Or.inl h'
  · exact Or.inr (mem_alRemove h')

theorem length_alInsert_of_not_contains {κ β : Type} [DecidableEq κ] (l : List (κ × β))
    (k : κ) (v : β) (h : alContains l k = false) :
    (alInsert l k v).length = l.length + 1 := by
  simp [alInsert, alRemove_of_not_contains l k h]

/-! ## Claim C8 -/

/-- C8: create_buffer_with_data records a ResourceInfo.Buffer for the returned
handle whose size equals the data length, overwriting the size the caller
supplied in the BufferInfo argument. -/
theorem C8_buffer_size (s : WgpuResources) (buffer_info : BufferInfo) (data : List Nat) :
    alGet (create_buffer_with_data s buffer_info data).1.resource_info
        (create_buffer_with_data s buffer_info data).2 =
      some (ResourceInfo.Buffer { buffer_info with size := data.length }) := by
  simp [create_buffer_with_data, alGet_alInsert_self]

/-! ## Claim C5 -/

/-- C5: for a pipeline handle not already realized and a descriptor whose
get_layout is absent, create_render_pipeline reaches the unwrap panic on the
missing layout and builds nothing. -/
theorem C5_missing_layout (s : WgpuResources) (pipeline_handle : Nat)
    (pd : PipelineDescriptor) (shaders : AssetStorage Shader)
    (hnew : alContains s.render_pipelines pipeline_handle = false)
    (hlayout : PipelineDescriptor.get_layout pd = none) :
    create_render_pipeline s pipeline_handle pd shaders =
      Except.error Panic.missingLayout := by
  simp [create_render_pipeline, hnew, hlayout]

theorem C5_missing_layout_witness :
    create_render_pipeline emptyResources 3 pdC5 storageEmpty =
      Except.error Panic.missingLayout :=
  C5_missing_layout emptyResources 3 pdC5 storageEmpty rfl rfl

/-! ## Claim C10 -/

/-- C10: removing a handle that is in no registry (never created or already
removed) is a no-op for remove_buffer, remove_texture and remove_sampler: no
panic (the operations are total) and the state is unchanged. -/
theorem C10_remove_unknown_noop (s : WgpuResources) (resource : Nat)
    (hb : alContains s.buffers resource = false)
    (ht : alContains s.textures resource = false)
    (htv : alContains s.texture_views resource = false)
    (hsam : alContains s.samplers resource = false)
    (hri : alContains s.resource_info resource = false) :
    remove_buffer s resource = s ∧ remove_texture s resource = s ∧
      remove_sampler s resource = s := by
  refine ⟨?_, ?_, ?_⟩ <;>
    simp [remove_buffer, remove_texture, remove_sampler,
      alRemove_of_not_contains _ _ hb, alRemove_of_not_contains _ _ ht,
      alRemove_of_not_contains _ _ htv, alRemove_of_not_contains _ _ hsam,
      alRemove_of_not_contains _ _ hri]

theorem C10_remove_unknown_noop_witness :
    remove_buffer sC10 5 = sC10 ∧ remove_texture sC10 5 = sC10 ∧
      remove_sampler sC10 5 = sC10 :=
  C10_remove_unknown_noop sC10 5 rfl rfl rfl rfl rfl

/-! ## Claim C6 -/

/-- C6: reflect_layout panics when the vertex shader handle does not resolve
in the shader store; when the vertex handle resolves, an unresolvable
fragment handle also panics rather than being skipped. -/
theorem C6_shader_resolution (pd : PipelineDescriptor) (shaders : AssetStorage Shader)
    (bevy_conventions : Bool) (vbd : Option VertexBufferDescriptors)
    (a : Option RenderResourceAssignments) (fragment_handle : Nat) :
    (AssetStorage.get shaders pd.shader_stages.vertex = none →
      PipelineDescriptor.reflect_layout pd shaders bevy_conventions vbd a =
        Except.error Panic.missingShader) ∧
    (pd.shader_stages.fragment = some fragment_handle →
      AssetStorage.get shaders fragment_handle = none →
      PipelineDescriptor.reflect_layout pd shaders bevy_conventions vbd a =
        Except.error Panic.missingShader) := by
  constructor
  · intro hv
    simp [PipelineDescriptor.reflect_layout, hv]
  · intro hf hfg
    cases hv : AssetStorage.get shaders pd.shader_stages.vertex with
    | none => simp [PipelineDescriptor.reflect_layout, hv]
    | some v => simp [PipelineDescriptor.reflect_layout, hv, hf, hfg]

theorem C6_shader_resolution_witness :
    PipelineDescriptor.reflect_layout pdC5 storageEmpty true none none =
      Except.error Panic.missingShader ∧
    PipelineDescriptor.reflect_layout pdC6 storageC6 true none none =
      Except.error Panic.missingShader :=
  ⟨(C6_shader_resolution pdC5 storageEmpty true none none 0).1 rfl,
   (C6_shader_resolution pdC6 storageC6 true none none 1).2 rfl rfl⟩

/-! ## Claim C1 -/

/-- C1 counterexample: in a state whose cache already holds a native bind
group for (descriptor id 10, resolved set identity 7), create_bind_group does
not return the identity — it falls through to the final None (line 565 of the
source) with no state change, so the claimed Some result does not occur. -/
theorem C1_counterexample :
    WgpuResources.has_bind_group sC1 dC1.id 7 = true ∧
    RenderResourceAssignments.get_render_resource_set aC1 dC1.id = some { id := 7 } ∧
    create_bind_group sC1 dC1 aC1 = Except.ok (sC1, none) ∧
    (none : Option Nat) ≠ some 7 :=
  ⟨rfl, rfl, rfl, by decide⟩

/-- C1 amended: when the resolved set identity exists and a native bind group
is already cached for (descriptor id, set identity), create_bind_group
returns None and performs no native creation; and whenever a call returns
Some i (a creation), i is the resolved set identity, exactly one native bind
group was created, the pair is now cached, and the repeat call with the
unchanged descriptor and identically resolved assignments is a cache hit
returning None with no state change and no second creation. -/
theorem C1_amended (s s' : WgpuResources) (d : BindGroupDescriptor)
    (a : RenderResourceAssignments) (set : RenderResourceSet) (i : Nat)
    (hset : RenderResourceAssignments.get_render_resource_set a d.id = some set) :
    (WgpuResources.has_bind_group s d.id set.id = true →
      create_bind_group s d a = Except.ok (s, none)) ∧
    (create_bind_group s d a = Except.ok (s', some i) →
      i = set.id ∧ s'.bind_groups_created = s.bind_groups_created + 1 ∧
      WgpuResources.has_bind_group s' d.id set.id = true ∧
      create_bind_group s' d a = Except.ok (s', none)) := by
  constructor
  · intro hhit
    simp [create_bind_group, hset, hhit]
  · intro hfirst
    simp only [create_bind_group, hset] at hfirst
    by_cases hhit : WgpuResources.has_bind_group s d.id set.id = true
    · simp [hhit] at hfirst
    · simp only [hhit, Bool.false_eq_true, if_false] at hfirst
      cases htr : translateBindings s a d.bindings with
      | error e => simp [htr] at hfirst
      | ok bs =>
        cases hlg : alGet s.bind_group_layouts d.id with
        | none => simp [htr, hlg] at hfirst
        | some u =>
          simp only [htr, hlg] at hfirst
          injection hfirst with hpair
          injection hpair with hst hsnd
          injection hsnd with hid
          have hstate : s' =
              { s with
                  bind_groups := alInsert s.bind_groups d.id
                    { bind_groups := alInsert
                        ((alGet s.bind_groups d.id).getD { bind_groups := [] }).bind_groups
                        set.id () }
                  bind_groups_created := s.bind_groups_created + 1 } := hst.symm
          have hi : i = set.id := hid.symm
          have hnow : WgpuResources.has_bind_group s' d.id set.id = true := by
            rw [hstate]
            simp [WgpuResources.has_bind_group, alGet_alInsert_self,
              alContains_alInsert_self]
          refine ⟨hi, ?_, hnow, ?_⟩
          · rw [hstate]
          · simp [create_bind_group, hset, hnow]

theorem C1_amended_witness :
    create_bind_group sC1 dC1 aC1 = Except.ok (sC1, none) ∧
    (7 = RenderResourceSet.id { id := 7 } ∧
     sHitC1.bind_groups_created = sMissC1.bind_groups_created + 1 ∧
     WgpuResources.has_bind_group sHitC1 dC1.id (RenderResourceSet.id { id := 7 }) = true ∧
     create_bind_group sHitC1 dC1 aC1 = Except.ok (sHitC1, none)) :=
  ⟨(C1_amended sC1 sC1 dC1 aC1 { id := 7 } 7 rfl).1 rfl,
   (C1_amended sMissC1 sHitC1 dC1 aC1 { id := 7 } 7 rfl).2 rfl⟩

/-! ## Claim C4 -/

/-- The binding-translation loop fails with the missing-binding panic naming
the first unassigned expected binding, provided every assignment that is
present translates (resolves to a live resource). -/
theorem translateBindings_firstUnassigned (s : WgpuResources)
    (a : RenderResourceAssignments) (l : List BindingDescriptor) (X : String)
    (hfirst : firstUnassigned a l = some X)
    (hres : ∀ b ∈ l, ∀ asg, RenderResourceAssignments.get a b.name = some asg →
        isOkE (translateAssignment s asg) = true) :
    translateBindings s a l = Except.error (Panic.missingBinding X) := by
  induction l with
  | nil => simp [firstUnassigned] at hfirst
  | cons b rest ih =>
    cases hb : RenderResourceAssignments.get a b.name with
    | none =>
      simp only [firstUnassigned, hb] at hfirst
      injection hfirst with hX
      subst hX
      simp [translateBindings, hb]
    | some asg =>
      have hok := hres b (List.mem_cons_self b rest) asg hb
      cases hta : translateAssignment s asg with
      | error e => rw [hta] at hok; simp [isOkE] at hok
      | ok r =>
        simp only [firstUnassigned, hb] at hfirst
        have ihres : ∀ b' ∈ rest, ∀ asg',
            RenderResourceAssignments.get a b'.name = some asg' →
            isOkE (translateAssignment s asg') = true :=
          fun b' hb' => hres b' (List.mem_cons_of_mem _ hb')
        have htl := ih hfirst ihres
        simp [translateBindings, hb, hta, htl]

/-- C4: on a cache miss (resolved set identity present, pair not cached), a
bind-group descriptor expecting a binding with no assignment makes
create_bind_group reach the fatal "No resource assigned" panic naming the
first such binding (here every assignment that is present resolves, so no
earlier unknown-resource unwrap preempts it); no bind group is built or
cached. -/
theorem C4_missing_binding (s : WgpuResources) (d : BindGroupDescriptor)
    (a : RenderResourceAssignments) (set : RenderResourceSet) (X : String)
    (hset : RenderResourceAssignments.get_render_resource_set a d.id = some set)
    (hmiss : WgpuResources.has_bind_group s d.id set.id = false)
    (hfirst : firstUnassigned a d.bindings = some X)
    (hres : ∀ b ∈ d.bindings, ∀ asg, RenderResourceAssignments.get a b.name = some asg →
        isOkE (translateAssignment s asg) = true) :
    create_bind_group s d a = Except.error (Panic.missingBinding X) := by
  have htr := translateBindings_firstUnassigned s a d.bindings X hfirst hres
  simp [create_bind_group, hset, hmiss, htr]

theorem C4_missing_binding_witness :
    create_bind_group emptyResources dC4 aC4 =
      Except.error (Panic.missingBinding "X") :=
  C4_missing_binding emptyResources dC4 aC4 { id := 9 } "X" rfl rfl rfl
    (fun _ _ _ hasg => Option.noConfusion hasg)

/-! ## Claim C7 -/

/-- Each successful run of N swap-chain acquisitions grows the swap-chain
output registry by exactly N entries: every acquired handle is fresh (the
allocator bound), so each insertion adds one entry. -/
theorem acquireN_length (w : Nat) : ∀ (N : Nat) (s s' : WgpuResources),
    (∀ p ∈ s.swap_chain_outputs, p.1 < s.next_resource) →
    acquireN s w N = Except.ok s' →
    s'.swap_chain_outputs.length = s.swap_chain_outputs.length + N := by
  intro N
  induction N with
  | zero =>
    intro s s' _ h
    injection h with h
    rw [← h, Nat.add_zero]
  | succ n ih =>
    intro s s' hf h
    cases hw : alGet s.window_swap_chains w with
    | none => simp [acquireN, next_swap_chain_texture, hw] at h
    | some u =>
      simp only [acquireN, next_swap_chain_texture, hw] at h
      have hnotc : alContains s.swap_chain_outputs s.next_resource = false :=
        alContains_of_bound_false hf
      have hf1 : ∀ p ∈ alInsert s.swap_chain_outputs s.next_resource (),
          p.1 < s.next_resource + 1 := by
        intro p hp
        rcases mem_alInsert hp with hp' | hp'
        · rw [hp']
          exact Nat.lt_succ_self _
        · exact Nat.lt_succ_of_lt (hf p hp')
      have hlen := ih _ s' hf1 h
      rw [hlen]
      rw [length_alInsert_of_not_contains _ _ _ hnotc]
      omega

/-- C7: N acquisitions without any drop leave exactly N more transient handles
in the swap-chain output registry (exactly N when it started empty), and one
drop_all_swap_chain_textures empties it regardless of N. -/
theorem C7_swap_chain_turnover (s s' : WgpuResources) (w N : Nat)
    (hfresh : ∀ p ∈ s.swap_chain_outputs, p.1 < s.next_resource)
    (hacq : acquireN s w N = Except.ok s') :
    s'.swap_chain_outputs.length = s.swap_chain_outputs.length + N ∧
    (drop_all_swap_chain_textures s').swap_chain_outputs = [] :=
  ⟨acquireN_length w N s s' hfresh hacq, rfl⟩

theorem C7_swap_chain_turnover_witness :
    sC7'.swap_chain_outputs.length = sC7.swap_chain_outputs.length + 3 ∧
    (drop_all_swap_chain_textures sC7').swap_chain_outputs = [] :=
  C7_swap_chain_turnover sC7 sC7' 0 3 (by simp [sC7, emptyResources]) rfl

/-! ## Claim C3 -/

/-- Realizing one bind-group layout touches only the bind_group_layouts map. -/
theorem create_bind_group_layout_preserves (s : WgpuResources) (d : BindGroupDescriptor) :
    (create_bind_group_layout s d).render_pipelines = s.render_pipelines ∧
    (create_bind_group_layout s d).pipelines_created = s.pipelines_created := by
  unfold create_bind_group_layout
  split <;> exact ⟨rfl, rfl⟩

/-- Realizing all bind-group layouts of a layout touches only the
bind_group_layouts map. -/
theorem foldl_create_bind_group_layout_preserves (gs : List BindGroupDescriptor) :
    ∀ (s : WgpuResources),
    (gs.foldl create_bind_group_layout s).render_pipelines = s.render_pipelines ∧
    (gs.foldl create_bind_group_layout s).pipelines_created = s.pipelines_created := by
  induction gs with
  | nil => intro s; exact ⟨rfl, rfl⟩
  | cons g t ih =>
    intro s
    have h1 := create_bind_group_layout_preserves s g
    have h2 := ih (create_bind_group_layout s g)
    exact ⟨h2.1.trans h1.1, h2.2.trans h1.2⟩

/-- A successful create_shader_module touches only the shader_modules map. -/
theorem create_shader_module_preserves (s s' : WgpuResources) (h : Nat)
    (st : AssetStorage Shader) (hok : create_shader_module s h st = Except.ok s') :
    s'.render_pipelines = s.render_pipelines ∧
    s'.pipelines_created = s.pipelines_created := by
  by_cases hc : alContains s.shader_modules h = true
  · simp only [create_shader_module, hc, if_true] at hok
    injection hok with hok
    rw [hok]
    exact ⟨rfl, rfl⟩
  · cases hg : AssetStorage.get st h with
    | none => simp [create_shader_module, hc, hg] at hok
    | some sh =>
      simp only [create_shader_module, hc, hg, Bool.false_eq_true, if_false] at hok
      injection hok with hok
      rw [← hok]
      exact ⟨rfl, rfl⟩

/-- A successful create_fragment_module touches only the shader_modules map. -/
theorem create_fragment_module_preserves (s s' : WgpuResources) (f : Option Nat)
    (st : AssetStorage Shader) (hok : create_fragment_module s f st = Except.ok s') :
    s'.render_pipelines = s.render_pipelines ∧
    s'.pipelines_created = s.pipelines_created := by
  cases f with
  | none =>
    injection hok with hok
    rw [← hok]
    exact ⟨rfl, rfl⟩
  | some fh => exact create_shader_module_preserves s s' fh st hok

/-- C3: a first create_render_pipeline call for an unrealized handle stores the
native pipeline under the handle and performs exactly one native pipeline
construction; any repeat call for the same handle — with any descriptor, since
memoization is keyed by handle identity, not descriptor content — observes the
handle present and returns with no further construction and no state change. -/
theorem C3_pipeline_memoization (s s' : WgpuResources) (pipeline_handle : Nat)
    (pd : PipelineDescriptor) (shaders : AssetStorage Shader)
    (pd2 : PipelineDescriptor) (shaders2 : AssetStorage Shader)
    (hnew : alContains s.render_pipelines pipeline_handle = false)
    (hfirst : create_render_pipeline s pipeline_handle pd shaders = Except.ok s') :
    alContains s'.render_pipelines pipeline_handle = true ∧
    s'.pipelines_created = s.pipelines_created + 1 ∧
    create_render_pipeline s' pipeline_handle pd2 shaders2 = Except.ok s' := by
  simp only [create_render_pipeline, hnew, Bool.false_eq_true, if_false] at hfirst
  split at hfirst
  · simp at hfirst
  · rename_i layout hl
    split at hfirst
    · split at hfirst
      · simp at hfirst
      · rename_i s2 hs2
        split at hfirst
        · simp at hfirst
        · rename_i s3 hs3
          split at hfirst
          · split at hfirst
            · injection hfirst with hfin
              have hp1 := foldl_create_bind_group_layout_preserves layout.bind_groups s
              have hp2 := create_shader_module_preserves _ s2 _ shaders hs2
              have hp3 := create_fragment_module_preserves s2 s3 _ shaders hs3
              have hrp : alContains s'.render_pipelines pipeline_handle = true := by
                rw [← hfin]
                exact alContains_alInsert_self _ _ _
              refine ⟨hrp, ?_, ?_⟩
              · rw [← hfin]
                show s3.pipelines_created + 1 = s.pipelines_created + 1
                rw [hp3.2, hp2.2, hp1.2]
              · simp [create_render_pipeline, hrp]
            · simp at hfirst
          · simp at hfirst
    · simp at hfirst

theorem C3_pipeline_memoization_witness :
    alContains sC3.render_pipelines 1 = true ∧
    sC3.pipelines_created = emptyResources.pipelines_created + 1 ∧
    create_render_pipeline sC3 1 pdC3 storageC3 = Except.ok sC3 :=
  C3_pipeline_memoization emptyResources sC3 1 pdC3 storageC3 pdC3 storageC3 rfl rfl

/-! ## Claim C2 -/

/-- The layout slot finish_reflect writes is the computed reflect_result. -/
theorem finish_reflect_get_layout (pd : PipelineDescriptor) (ls : List ShaderLayout)
    (vbd : Option VertexBufferDescriptors) (rra : Option RenderResourceAssignments) :
    (finish_reflect pd ls vbd rra).get_layout = some (reflect_result ls vbd rra) :=
  rfl

/-- Reflecting with an assignment set supplied yields exactly the promotion
pass applied to the layout reflected without assignments. -/
theorem reflect_result_some (ls : List ShaderLayout)
    (vbd : Option VertexBufferDescriptors) (a : RenderResourceAssignments) :
    reflect_result ls vbd (some a) = promoteLayout a (reflect_result ls vbd none) := by
  cases vbd <;> rfl

/-- promoteBinding written through the dynamic-assignment test: the binding is
rewritten exactly when its name has a dynamic buffer assignment, and then only
a uniform bind type has its flag set. -/
theorem promoteBinding_eq (a : RenderResourceAssignments) (b0 : BindingDescriptor) :
    promoteBinding a b0 =
      if dynamicBufferAssigned a b0.name = true then
        (match b0.bind_type with
         | BindType.Uniform _ => { b0 with bind_type := BindType.Uniform true }
         | _ => b0)
      else b0 := by
  unfold promoteBinding dynamicBufferAssigned
  cases hget : RenderResourceAssignments.get a b0.name with
  | none => simp
  | some asg =>
    cases asg with
    | Texture r => simp
    | Sampler r => simp
    | Buffer r rng di => cases di <;> simp

/-- promoteBinding never changes a binding's name. -/
theorem promoteBinding_name (a : RenderResourceAssignments) (b0 : BindingDescriptor) :
    (promoteBinding a b0).name = b0.name := by
  rw [promoteBinding_eq]
  by_cases hd : dynamicBufferAssigned a b0.name = true
  · rw [if_pos hd]
    cases b0.bind_type <;> rfl
  · rw [if_neg hd]

/-- C2: after reflect_layout with a supplied assignment set, the resulting
layout is the promotion pass over the layout reflected without assignments;
every binding of the result whose name maps to a buffer assignment with a
dynamic index reports dynamic = true whenever its type carries the dynamic
flag (a uniform), and every binding with no such assignment is carried over
unchanged from the unpromoted reflected layout (so it remains dynamic =
false). -/
theorem C2_dynamic_promotion (pd : PipelineDescriptor) (shaders : AssetStorage Shader)
    (bevy_conventions : Bool) (vbd : Option VertexBufferDescriptors)
    (a : RenderResourceAssignments) (pd' pd0 : PipelineDescriptor)
    (L L0 : PipelineLayout) (g : BindGroupDescriptor) (b : BindingDescriptor)
    (h1 : PipelineDescriptor.reflect_layout pd shaders bevy_conventions vbd (some a) =
      Except.ok pd')
    (h0 : PipelineDescriptor.reflect_layout pd shaders bevy_conventions vbd none =
      Except.ok pd0)
    (hL : pd'.get_layout = some L) (hL0 : pd0.get_layout = some L0)
    (hg : g ∈ L.bind_groups) (hb : b ∈ g.bindings) :
    L = promoteLayout a L0 ∧
    (dynamicBufferAssigned a b.name = true → hasDynamicFlag b.bind_type = true →
      b.bind_type = BindType.Uniform true) ∧
    (dynamicBufferAssigned a b.name = false →
      b ∈ (L0.bind_groups.map BindGroupDescriptor.bindings).flatten) := by
  have hLL : L = promoteLayout a L0 := by
    cases hv : AssetStorage.get shaders pd.shader_stages.vertex with
    | none => simp [PipelineDescriptor.reflect_layout, hv] at h1
    | some vsh =>
      cases hf : pd.shader_stages.fragment with
      | none =>
        cases hrv : Shader.reflect_layout vsh bevy_conventions with
        | none => simp [PipelineDescriptor.reflect_layout, hv, hf, hrv] at h1
        | some vl =>
          simp only [PipelineDescriptor.reflect_layout, hv, hf, hrv] at h1 h0
          injection h1 with h1
          injection h0 with h0
          rw [← h1, finish_reflect_get_layout] at hL
          rw [← h0, finish_reflect_get_layout] at hL0
          injection hL with hL
          injection hL0 with hL0
          rw [← hL, ← hL0, reflect_result_some]
      | some fh =>
        cases hfg : AssetStorage.get shaders fh with
        | none => simp [PipelineDescriptor.reflect_layout, hv, hf, hfg] at h1
        | some fsh =>
          cases hrv : Shader.reflect_layout vsh bevy_conventions with
          | none => simp [PipelineDescriptor.reflect_layout, hv, hf, hfg, hrv] at h1
          | some vl =>
            cases hrf : Shader.reflect_layout fsh bevy_conventions with
            | none =>
              simp [PipelineDescriptor.reflect_layout, hv, hf, hfg, hrv, hrf] at h1
            | some fl =>
              simp only [PipelineDescriptor.reflect_layout, hv, hf, hfg, hrv, hrf]
                at h1 h0
              injection h1 with h1
              injection h0 with h0
              rw [← h1, finish_reflect_get_layout] at hL
              rw [← h0, finish_reflect_get_layout] at hL0
              injection hL with hL
              injection hL0 with hL0
              rw [← hL, ← hL0, reflect_result_some]
  have hg' : g ∈ L0.bind_groups.map (promoteBindGroup a) := by
    rw [hLL] at hg
    exact hg
  obtain ⟨g0, hg0, hgeq⟩ := List.mem_map.mp hg'
  have hb' : b ∈ g0.bindings.map (promoteBinding a) := by
    rw [← hgeq] at hb
    exact hb
  obtain ⟨b0, hb0, hbeq⟩ := List.mem_map.mp hb'
  have hname : b.name = b0.name := by
    rw [← hbeq]
    exact promoteBinding_name a b0
  refine ⟨hLL, ?_, ?_⟩
  · intro hdyn hflag
    have hdyn0 : dynamicBufferAssigned a b0.name = true := by rw [← hname]; exact hdyn
    rw [promoteBinding_eq, if_pos hdyn0] at hbeq
    cases hbt : b0.bind_type with
    | Uniform d =>
      rw [hbt] at hbeq
      rw [← hbeq]
    | StorageBuffer =>
      rw [hbt] at hbeq
      rw [← hbeq] at hflag
      simp [hasDynamicFlag, hbt] at hflag
    | SampledTexture =>
      rw [hbt] at hbeq
      rw [← hbeq] at hflag
      simp [hasDynamicFlag, hbt] at hflag
    | Sampler =>
      rw [hbt] at hbeq
      rw [← hbeq] at hflag
      simp [hasDynamicFlag, hbt] at hflag
  · intro hndyn
    have hdyn0 : dynamicBufferAssigned a b0.name = false := by rw [← hname]; exact hndyn
    have hbb0 : b = b0 := by
      rw [promoteBinding_eq, hdyn0] at hbeq
      simp at hbeq
      exact hbeq.symm
    exact List.mem_flatten.mpr ⟨g0.bindings, List.mem_map_of_mem _ hg0, hbb0 ▸ hb0⟩

theorem C2_dynamic_promotion_witness :
    LC2 = promoteLayout aC2 L0C2 ∧
    (dynamicBufferAssigned aC2 bTransformDyn.name = true →
      hasDynamicFlag bTransformDyn.bind_type = true →
      bTransformDyn.bind_type = BindType.Uniform true) ∧
    (dynamicBufferAssigned aC2 bTransformDyn.name = false →
      bTransformDyn ∈ (L0C2.bind_groups.map BindGroupDescriptor.bindings).flatten) :=
  C2_dynamic_promotion pdC2 storageC2 true none aC2 pdC2' pdC2zero LC2 L0C2 gC2'
    bTransformDyn rfl rfl rfl rfl (by simp [LC2]) (by simp [gC2'])

/-! ## Claim C9 -/

theorem bound_raise {β : Type} {l : List (Nat × β)} {n : Nat}
    (h : ∀ p ∈ l, p.1 < n) : ∀ p ∈ l, p.1 < n + 1 :=
  fun p hp => Nat.lt_succ_of_lt (h p hp)

theorem bound_insert {β : Type} {l : List (Nat × β)} {n : Nat} (v : β)
    (h : ∀ p ∈ l, p.1 < n) : ∀ p ∈ alInsert l n v, p.1 < n + 1 := by
  intro p hp
  rcases mem_alInsert hp with hp' | hp'
  · rw [hp']
    exact Nat.lt_succ_self n
  · exact Nat.lt_succ_of_lt (h p hp')

theorem bound_remove {β : Type} {l : List (Nat × β)} {n k : Nat}
    (h : ∀ p ∈ l, p.1 < n) : ∀ p ∈ alRemove l k, p.1 < n :=
  fun p hp => h p (mem_alRemove hp)

/-- Freshly allocating a buffer handle preserves the registry invariant and
the allocator bound (common to create_buffer, create_buffer_with_data and
create_buffer_mapped, which differ only in the recorded BufferInfo). -/
theorem bufferInsert_invariant (s : WgpuResources) (ri : ResourceInfo)
    (hinv : regInvariant s) (hfresh : freshBound s) :
    regInvariant
      { s with
          resource_info := alInsert s.resource_info s.next_resource ri
          buffers := alInsert s.buffers s.next_resource ()
          next_resource := s.next_resource + 1 } ∧
    freshBound
      { s with
          resource_info := alInsert s.resource_info s.next_resource ri
          buffers := alInsert s.buffers s.next_resource ()
          next_resource := s.next_resource + 1 } := by
  obtain ⟨hio, hso⟩ := hinv
  obtain ⟨hbB, htB, hsB, hiB, hoB⟩ := hfresh
  have htF : alContains s.textures s.next_resource = false := alContains_of_bound_false htB
  have hsF : alContains s.samplers s.next_resource = false := alContains_of_bound_false hsB
  refine ⟨⟨?_, ?_⟩, bound_insert () hbB, bound_raise htB, bound_raise hsB,
    bound_insert ri hiB, bound_raise hoB⟩
  · intro k
    by_cases hk : k = s.next_resource
    · subst hk
      simp [regCount, alContains_alInsert_self, htF, hsF]
    · simpa [regCount, alContains_alInsert_ne _ _ _ _ hk] using hio k
  · intro k hk
    obtain ⟨v, hv⟩ := alContains_exists_mem _ _ hk
    have hkr : k ≠ s.next_resource := Nat.ne_of_lt (hoB (k, v) hv)
    rw [alContains_alInsert_ne _ _ _ _ hkr]
    exact hso k hk

/-- Freshly allocating a texture handle preserves the registry invariant and
the allocator bound (common to create_texture and create_texture_with_data;
the texture_views map is untracked by the invariant). -/
theorem textureInsert_invariant (s : WgpuResources) (ri : ResourceInfo)
    (hinv : regInvariant s) (hfresh : freshBound s) :
    regInvariant
      { s with
          textures := alInsert s.textures s.next_resource ()
          texture_views := alInsert s.texture_views s.next_resource ()
          resource_info := alInsert s.resource_info s.next_resource ri
          next_resource := s.next_resource + 1 } ∧
    freshBound
      { s with
          textures := alInsert s.textures s.next_resource ()
          texture_views := alInsert s.texture_views s.next_resource ()
          resource_info := alInsert s.resource_info s.next_resource ri
          next_resource := s.next_resource + 1 } := by
  obtain ⟨hio, hso⟩ := hinv
  obtain ⟨hbB, htB, hsB, hiB, hoB⟩ := hfresh
  have hbF : alContains s.buffers s.next_resource = false := alContains_of_bound_false hbB
  have hsF : alContains s.samplers s.next_resource = false := alContains_of_bound_false hsB
  refine ⟨⟨?_, ?_⟩, bound_raise hbB, bound_insert () htB, bound_raise hsB,
    bound_insert ri hiB, bound_raise hoB⟩
  · intro k
    by_cases hk : k = s.next_resource
    · subst hk
      simp [regCount, alContains_alInsert_self, hbF, hsF]
    · simpa [regCount, alContains_alInsert_ne _ _ _ _ hk] using hio k
  · intro k hk
    obtain ⟨v, hv⟩ := alContains_exists_mem _ _ hk
    have hkr : k ≠ s.next_resource := Nat.ne_of_lt (hoB (k, v) hv)
    rw [alContains_alInsert_ne _ _ _ _ hkr]
    exact hso k hk

/-- Freshly allocating a sampler handle preserves the registry invariant and
the allocator bound. -/
theorem samplerInsert_invariant (s : WgpuResources) (ri : ResourceInfo)
    (hinv : regInvariant s) (hfresh : freshBound s) :
    regInvariant
      { s with
          samplers := alInsert s.samplers s.next_resource ()
          resource_info := alInsert s.resource_info s.next_resource ri
          next_resource := s.next_resource + 1 } ∧
    freshBound
      { s with
          samplers := alInsert s.samplers s.next_resource ()
          resource_info := alInsert s.resource_info s.next_resource ri
          next_resource := s.next_resource + 1 } := by
  obtain ⟨hio, hso⟩ := hinv
  obtain ⟨hbB, htB, hsB, hiB, hoB⟩ := hfresh
  have hbF : alContains s.buffers s.next_resource = false := alContains_of_bound_false hbB
  have htF : alContains s.textures s.next_resource = false := alContains_of_bound_false htB
  refine ⟨⟨?_, ?_⟩, bound_raise hbB, bound_raise htB, bound_insert () hsB,
    bound_insert ri hiB, bound_raise hoB⟩
  · intro k
    by_cases hk : k = s.next_resource
    · subst hk
      simp [regCount, alContains_alInsert_self, hbF, htF]
    · simpa [regCount, alContains_alInsert_ne _ _ _ _ hk] using hio k
  · intro k hk
    obtain ⟨v, hv⟩ := alContains_exists_mem _ _ hk
    have hkr : k ≠ s.next_resource := Nat.ne_of_lt (hoB (k, v) hv)
    rw [alContains_alInsert_ne _ _ _ _ hkr]
    exact hso k hk

/-- remove_buffer preserves the registry invariant provided the handle is not
registered as a texture or sampler (the amended C9 side condition). -/
theorem removeBuffer_invariant (s : WgpuResources) (r : Nat)
    (hinv : regInvariant s) (hfresh : freshBound s)
    (ht : alContains s.textures r = false) (hs : alContains s.samplers r = false) :
    regInvariant (remove_buffer s r) ∧ freshBound (remove_buffer s r) := by
  obtain ⟨hio, hso⟩ := hinv
  obtain ⟨hbB, htB, hsB, hiB, hoB⟩ := hfresh
  refine ⟨⟨?_, ?_⟩, bound_remove hbB, htB, hsB, bound_remove hiB, hoB⟩
  · intro k
    by_cases hk : k = r
    · subst hk
      simp [remove_buffer, regCount, alContains_alRemove_self, ht, hs]
    · simpa [remove_buffer, regCount, alContains_alRemove_ne _ _ _ hk] using hio k
  · intro k hk
    by_cases hkr : k = r
    · subst hkr
      simp [remove_buffer, alContains_alRemove_self]
    · rw [show (remove_buffer s r).resource_info = alRemove s.resource_info r from rfl,
        alContains_alRemove_ne _ _ _ hkr]
      exact hso k hk

/-- remove_texture preserves the registry invariant provided the handle is not
registered as a buffer or sampler. -/
theorem removeTexture_invariant (s : WgpuResources) (r : Nat)
    (hinv : regInvariant s) (hfresh : freshBound s)
    (hb : alContains s.buffers r = false) (hs : alContains s.samplers r = false) :
    regInvariant (remove_texture s r) ∧ freshBound (remove_texture s r) := by
  obtain ⟨hio, hso⟩ := hinv
  obtain ⟨hbB, htB, hsB, hiB, hoB⟩ := hfresh
  refine ⟨⟨?_, ?_⟩, hbB, bound_remove htB, hsB, bound_remove hiB, hoB⟩
  · intro k
    by_cases hk : k = r
    · subst hk
      simp [remove_texture, regCount, alContains_alRemove_self, hb, hs]
    · simpa [remove_texture, regCount, alContains_alRemove_ne _ _ _ hk] using hio k
  · intro k hk
    by_cases hkr : k = r
    · subst hkr
      simp [remove_texture, alContains_alRemove_self]
    · rw [show (remove_texture s r).resource_info = alRemove s.resource_info r from rfl,
        alContains_alRemove_ne _ _ _ hkr]
      exact hso k hk

/-- remove_sampler preserves the registry invariant provided the handle is not
registered as a buffer or texture. -/
theorem removeSampler_invariant (s : WgpuResources) (r : Nat)
    (hinv : regInvariant s) (hfresh : freshBound s)
    (hb : alContains s.buffers r = false) (ht : alContains s.textures r = false) :
    regInvariant (remove_sampler s r) ∧ freshBound (remove_sampler s r) := by
  obtain ⟨hio, hso⟩ := hinv
  obtain ⟨hbB, htB, hsB, hiB, hoB⟩ := hfresh
  refine ⟨⟨?_, ?_⟩, hbB, htB, bound_remove hsB, bound_remove hiB, hoB⟩
  · intro k
    by_cases hk : k = r
    · subst hk
      simp [remove_sampler, regCount, alContains_alRemove_self, hb, ht]
    · simpa [remove_sampler, regCount, alContains_alRemove_ne _ _ _ hk] using hio k
  · intro k hk
    by_cases hkr : k = r
    · subst hkr
      simp [remove_sampler, alContains_alRemove_self]
    · rw [show (remove_sampler s r).resource_info = alRemove s.resource_info r from rfl,
        alContains_alRemove_ne _ _ _ hkr]
      exact hso k hk

/-- Acquiring a swap-chain image preserves the registry invariant: the fresh
transient handle enters only swap_chain_outputs, never resource_info. -/
theorem nextSwap_invariant (s : WgpuResources) (w : Nat)
    (hinv : regInvariant s) (hfresh : freshBound s)
    (hw : alContains s.window_swap_chains w = true) :
    regInvariant (applyOp s (ResOp.nextSwapChainTexture w)) ∧
    freshBound (applyOp s (ResOp.nextSwapChainTexture w)) := by
  obtain ⟨hio, hso⟩ := hinv
  obtain ⟨hbB, htB, hsB, hiB, hoB⟩ := hfresh
  have hiF : alContains s.resource_info s.next_resource = false :=
    alContains_of_bound_false hiB
  cases hg : alGet s.window_swap_chains w with
  | none => simp [alContains, hg] at hw
  | some u =>
    have happ : applyOp s (ResOp.nextSwapChainTexture w) =
        { s with
            swap_chain_outputs := alInsert s.swap_chain_outputs s.next_resource ()
            next_resource := s.next_resource + 1 } := by
      simp [applyOp, next_swap_chain_texture, hg]
    rw [happ]
    refine ⟨⟨?_, ?_⟩, bound_raise hbB, bound_raise htB, bound_raise hsB,
      bound_raise hiB, bound_insert () hoB⟩
    · intro k
      exact hio k
    · intro k hk
      by_cases hkr : k = s.next_resource
      · subst hkr
        exact hiF
      · rw [show ({ s with
            swap_chain_outputs := alInsert s.swap_chain_outputs s.next_resource ()
            next_resource := s.next_resource + 1 } : WgpuResources).swap_chain_outputs =
              alInsert s.swap_chain_outputs s.next_resource () from rfl,
          alContains_alInsert_ne _ _ _ _ hkr] at hk
        exact hso k hk

/-- One registry operation preserves the invariant and the allocator bound
under its side condition. -/
theorem applyOp_preserves (s : WgpuResources) (op : ResOp)
    (hinv : regInvariant s) (hfresh : freshBound s) (hok : opOk s op = true) :
    regInvariant (applyOp s op) ∧ freshBound (applyOp s op) := by
  cases op with
  | createBuffer info =>
    exact bufferInsert_invariant s (ResourceInfo.Buffer info) hinv hfresh
  | createBufferWithData info data =>
    exact bufferInsert_invariant s
      (ResourceInfo.Buffer { info with size := data.length }) hinv hfresh
  | createBufferMapped info =>
    exact bufferInsert_invariant s (ResourceInfo.Buffer info) hinv hfresh
  | createTexture d =>
    exact textureInsert_invariant s (ResourceInfo.Texture d) hinv hfresh
  | createSampler d =>
    exact samplerInsert_invariant s ResourceInfo.Sampler hinv hfresh
  | removeBuffer r =>
    simp only [opOk, Bool.and_eq_true, Bool.not_eq_true'] at hok
    exact removeBuffer_invariant s r hinv hfresh hok.1 hok.2
  | removeTexture r =>
    simp only [opOk, Bool.and_eq_true, Bool.not_eq_true'] at hok
    exact removeTexture_invariant s r hinv hfresh hok.1 hok.2
  | removeSampler r =>
    simp only [opOk, Bool.and_eq_true, Bool.not_eq_true'] at hok
    exact removeSampler_invariant s r hinv hfresh hok.1 hok.2
  | nextSwapChainTexture w =>
    simp only [opOk] at hok
    exact nextSwap_invariant s w hinv hfresh hok

/-- C9 counterexample: from the empty state, create_texture establishes the
invariant, but then calling remove_buffer on the texture's handle (a
cross-kind removal) erases the handle's ResourceInfo while it is still
registered as a texture — the invariant is broken, so the unrestricted claim
fails on this two-operation sequence. -/
theorem C9_counterexample :
    regInvariant (applyOps emptyResources [ResOp.createTexture 0]) ∧
    ¬ regInvariant (applyOps emptyResources
        [ResOp.createTexture 0, ResOp.removeBuffer 0]) := by
  constructor
  · constructor
    · intro k
      by_cases hk : k = 0
      · subst hk
        simp [applyOps, applyOp, create_texture, emptyResources, regCount,
          alContains, alGet, alInsert, alRemove]
      · simp [applyOps, applyOp, create_texture, emptyResources, regCount,
          alContains, alGet, alInsert, alRemove, Ne.symm hk]
    · intro k hk
      simp [applyOps, applyOp, create_texture, emptyResources, alContains, alGet] at hk
  · intro hcontra
    have h0 := hcontra.1 0
    simp [applyOps, applyOp, create_texture, remove_buffer, emptyResources, regCount,
      alContains, alGet, alInsert, alRemove] at h0

/-- C9 amended: every sequence of the registry operations preserves the
invariant (a handle has a ResourceInfo entry exactly when it is registered
under exactly one kind, and swap-chain outputs never carry a ResourceInfo)
provided each removal targets a handle not registered under a different kind
and each acquisition targets a window with a created swap chain; the
allocator freshness bound is preserved alongside. -/
theorem C9_amended (s : WgpuResources) (ops : List ResOp)
    (hinv : regInvariant s) (hfresh : freshBound s) (hok : opsOk s ops = true) :
    regInvariant (applyOps s ops) ∧ freshBound (applyOps s ops) := by
  induction ops generalizing s with
  | nil => exact ⟨hinv, hfresh⟩
  | cons op rest ih =>
    simp only [opsOk, Bool.and_eq_true] at hok
    have hstep := applyOp_preserves s op hinv hfresh hok.1
    exact ih (applyOp s op) hstep.1 hstep.2 hok.2

/-- The empty state satisfies the registry invariant. -/
theorem regInvariant_empty : regInvariant emptyResources := by
  constructor
  · intro k
    simp [emptyResources, alContains, alGet, regCount]
  · intro k hk
    simp [emptyResources, alContains, alGet] at hk

/-- The empty state satisfies the allocator freshness bound. -/
theorem freshBound_empty : freshBound emptyResources := by
  refine ⟨?_, ?_, ?_, ?_, ?_⟩ <;> intro p hp <;> simp [emptyResources] at hp

theorem C9_amended_witness :
    regInvariant (applyOps emptyResources opsC9) ∧
    freshBound (applyOps emptyResources opsC9) :=
  C9_amended emptyResources opsC9 regInvariant_empty freshBound_empty rfl
